import Mathlib

/-!
Verification of `src/distributed/dist_loader.py` (class `DistLoader`).

The Python source is shallowly embedded: the loader's mutable attributes
become fields of a `DistLoader` structure, methods become pure functions
from a loader state to a new state (plus, where the claims need it, a
trace of protocol events), exceptions become an explicit result type, and
`mp.Queue` objects become `Channel` values carrying an allocation
identifier (so that object identity — "the same queue object" — is the
identifier) and a FIFO buffer of opaque messages (modelled as `Nat`).
-/

/-- Embedding of `distributed.dist_context.DistContext`: the five fields
passed to its constructor in `worker_init_fn`. -/
structure DistContext where
  world_size : Nat
  rank : Nat
  global_world_size : Nat
  global_rank : Nat
  group_name : String
deriving DecidableEq, Repr

/-- An `mp.Queue`: `id` models Python object identity (each call to
`mp.Queue()` yields a fresh one), `buf` the FIFO contents. -/
structure Channel where
  id : Nat
  buf : List Nat
deriving DecidableEq, Repr

/-- Embeds `Queue.empty()`. -/
def Channel.is_empty (c : Channel) : Bool :=
  c.buf.isEmpty

/-- Protocol events emitted by the loader, in program order, used to state
the ordering guarantees of `reset_channel` and `__exit__`. -/
inductive Event where
  | pop (msg : Nat)
  | barrier
  | swap (cid : Nat)
  | propagate (cid : Nat)
deriving DecidableEq, Repr

/-- The mutable state of a `DistLoader` instance together with the piece of
sampler state the loader touches (`dist_sampler.channel`, field
`sampler_channel` here).  `next_id` is the allocator for fresh object
identities (`mp.Queue()` in `reset_channel`, `self._get_iterator()` in
`__enter__`). -/
structure DistLoader where
  current_ctx : DistContext
  channel : Option Channel
  sampler_channel : Option Channel
  num_workers : Nat
  pid : Nat
  prefetch_factor : Nat
  prefetch_old : Nat
  iterator : Option Nat
  current_ctx_worker : Option DistContext
  next_id : Nat
deriving DecidableEq, Repr

/-- Result of running a Python method body that may raise: `runtimeError`
is a raised `RuntimeError` (the class `worker_init_fn` catches),
`otherError` any other exception. -/
inductive PyResult (α : Type) where
  | ok (a : α)
  | runtimeError (msg : String)
  | otherError (msg : String)
deriving DecidableEq, Repr

/-- Embeds `num_sampler_proc = self.num_workers if self.num_workers > 0 else 1`
from `worker_init_fn`. -/
def num_sampler_proc (num_workers : Nat) : Nat :=
  if num_workers > 0 then num_workers else 1

/-- The `DistContext(...)` constructed in `worker_init_fn` for a given
parent context, `num_workers` and `worker_id`. -/
def worker_ctx (ctx : DistContext) (num_workers worker_id : Nat) : DistContext :=
  let p := num_sampler_proc num_workers
  { world_size := ctx.world_size * p
    rank := ctx.rank * p + worker_id
    global_world_size := ctx.world_size * p
    global_rank := ctx.rank * p + worker_id
    group_name := "mp_sampling_worker" }

/-- Embeds `DistLoader.__repr__`: `f'{self.__class__.__name__}(pid={self.pid})'`. -/
def dunder_repr (s : DistLoader) : String :=
  "DistLoader" ++ "(pid=" ++ toString s.pid ++ ")"

/-- The message of the `RuntimeError` re-raised by `worker_init_fn`. -/
def init_fn_error_msg (s : DistLoader) : String :=
  "`" ++ dunder_repr s ++ ".init_fn()` could not initialize the " ++
    "worker loop of the neighbor sampler"

/-- Embeds `DistLoader.worker_init_fn(worker_id)`.  The behaviour of the external
call `self.dist_sampler.init_sampler_instance()` is an input
(`samplerInit`): the `try` block first stores the derived context in
`self.current_ctx_worker`, then runs the sampler init; an escaping
`RuntimeError` is replaced by a new `RuntimeError` with message
`init_fn_error_msg`, any other exception propagates unchanged. -/
def worker_init_fn (s : DistLoader) (samplerInit : PyResult Unit)
    (worker_id : Nat) : PyResult DistLoader :=
  let ctxw := worker_ctx s.current_ctx s.num_workers worker_id
  let s' := { s with current_ctx_worker := some ctxw }
  match samplerInit with
  | .ok _ => .ok s'
  | .runtimeError _ => .runtimeError (init_fn_error_msg s)
  | .otherError m => .otherError m

/-- Embeds `DistLoader.channel_get(out)`: `if self.channel: out = self.channel.get()`.
With no channel the placeholder passes through; with a channel, `get()`
blocks until a message is available — in this sequential model a call on
an empty channel never returns, encoded as `none`. -/
def channel_get (s : DistLoader) (out : Nat) : Option (Nat × DistLoader) :=
  match s.channel with
  | none => some (out, s)
  | some c =>
    match c.buf with
    | [] => none
    | m :: rest => some (m, { s with channel := some { c with buf := rest } })

/-- The drain loop of `reset_channel`:
`while not self.channel.empty(): self.channel.get_nowait()`.
Returns the channel buffer after the loop and, in order, the `pop` events
the loop performed (no concurrent producer runs in this sequential model,
so each iteration pops the current head). -/
def drain_channel (buf : List Nat) : List Nat × List Event :=
  match buf with
  | [] => (buf, [])
  | m :: rest =>
    let r := drain_channel rest
    (r.1, Event.pop m :: r.2)

/-- Embeds `DistLoader.reset_channel(channel=None)`: drain the current channel,
`torch.distributed.barrier()`, install `channel or mp.Queue()` as
`self.channel`, then set `self.dist_sampler.channel` to it.  Accessing
`self.channel.empty()` when `self.channel is None` raises
(`AttributeError`), modelled by the `.error` branch.  Returns the new
state and the event trace in program order. -/
def reset_channel (ch : Option Channel) (s : DistLoader) :
    Except String (DistLoader × List Event) :=
  match s.channel with
  | none => .error "AttributeError: NoneType object has no attribute empty"
  | some cur =>
    let d := drain_channel cur.buf
    let newCh : Channel :=
      match ch with
      | some c => c
      | none => { id := s.next_id, buf := [] }
    let nid : Nat :=
      match ch with
      | some _ => s.next_id
      | none => s.next_id + 1
    let s' := { s with channel := some newCh, sampler_channel := some newCh, next_id := nid }
    .ok (s', d.2 ++ [Event.barrier, Event.swap newCh.id, Event.propagate newCh.id])

/-- Embeds `DistLoader.__enter__`: save `self.prefetch_factor` into
`self._prefetch_old`, set `self.prefetch_factor = 1`, build a fresh
iterator with `self._get_iterator()` and return it (its identity is a
fresh allocation id). -/
def dunder_enter (s : DistLoader) : DistLoader × Nat :=
  let s' := { s with prefetch_old := s.prefetch_factor, prefetch_factor := 1, iterator := some s.next_id, next_id := s.next_id + 1 }
  (s', s.next_id)

/-- The second half of `DistLoader.__exit__`: `if self._iterator:` delete
the iterator, `torch.distributed.barrier()`, set `self._iterator = None`
and restore `self.prefetch_factor = self._prefetch_old`; otherwise do
nothing. -/
def exit_iter_teardown (s : DistLoader) (evs : List Event) :
    DistLoader × List Event :=
  match s.iterator with
  | some _ =>
    let s' := { s with iterator := none, prefetch_factor := s.prefetch_old }
    (s', evs ++ [Event.barrier])
  | none => (s, evs)

/-- Embeds `DistLoader.__exit__`: `if self.channel: self.reset_channel()`, then
the iterator teardown.  A channel is truthy exactly when it is not `None`
(`mp.Queue` defines no `__bool__`/`__len__`). -/
def dunder_exit (s : DistLoader) : Except String (DistLoader × List Event) :=
  match s.channel with
  | some _ =>
    match reset_channel none s with
    | .error e => .error e
    | .ok (s₁, evs) => .ok (exit_iter_teardown s₁ evs)
  | none => .ok (exit_iter_teardown s [])

/-- A concrete loader state used for witnesses and counterexamples. -/
def ctx0 : DistContext :=
  { world_size := 2, rank := 1, global_world_size := 2, global_rank := 1, group_name := "group" }

/-- A concrete `DistLoader` with pid 7 and no channel. -/
def ldr0 : DistLoader :=
  { current_ctx := ctx0, channel := none, sampler_channel := none, num_workers := 2, pid := 7, prefetch_factor := 8, prefetch_old := 0, iterator := none, current_ctx_worker := none, next_id := 1 }

/- ### Helper lemmas -/

theorem num_sampler_proc_pos (n : Nat) : 0 < num_sampler_proc n := by
  unfold num_sampler_proc
  split <;> omega

theorem num_sampler_proc_eq_max (n : Nat) : num_sampler_proc n = max n 1 := by
  unfold num_sampler_proc
  split <;> omega

theorem drain_channel_fst (b : List Nat) : (drain_channel b).1 = [] := by
  induction b with
  | nil => rfl
  | cons m rest ih => simpa [drain_channel] using ih

theorem drain_channel_snd (b : List Nat) : (drain_channel b).2 = b.map Event.pop := by
  induction b with
  | nil => rfl
  | cons m rest ih => simp [drain_channel, ih]

/- ### Claim theorems -/

/-- C2 — Worker-context derivation formula: for every parent context with
world_size `W` and rank `R` and every `worker_id`, `worker_init_fn`
(sampler init succeeding) derives a child context with effective pool size
`P = num_workers if num_workers > 0 else 1`, `global_world_size = W * P`,
`global_rank = R * P + worker_id`, and
`group_name = "mp_sampling_worker"`. -/
theorem worker_ctx_derivation_formula (s : DistLoader) (w : Nat) :
    ∃ c, worker_init_fn s (.ok ()) w = .ok { s with current_ctx_worker := some c } ∧
      c.global_world_size = s.current_ctx.world_size * (if s.num_workers > 0 then s.num_workers else 1) ∧
      c.global_rank = s.current_ctx.rank * (if s.num_workers > 0 then s.num_workers else 1) + w ∧
      c.group_name = "mp_sampling_worker" := by
  refine ⟨worker_ctx s.current_ctx s.num_workers w, rfl, ?_, ?_, rfl⟩ <;>
    simp [worker_ctx, num_sampler_proc]

/-- C9 — In every context derived by `worker_init_fn` the local fields
equal the global fields: `world_size = global_world_size = W * P` and
`rank = global_rank = R * P + w`; the child context does not retain the
parent's group-level `world_size` or `rank` in its local fields. -/
theorem worker_ctx_local_eq_global (s : DistLoader) (w : Nat) :
    ∃ c, worker_init_fn s (.ok ()) w = .ok { s with current_ctx_worker := some c } ∧
      c.world_size = c.global_world_size ∧
      c.rank = c.global_rank ∧
      c.global_world_size = s.current_ctx.world_size * num_sampler_proc s.num_workers ∧
      c.global_rank = s.current_ctx.rank * num_sampler_proc s.num_workers + w :=
  ⟨worker_ctx s.current_ctx s.num_workers w, rfl, rfl, rfl, rfl, rfl⟩

/-- C8 — Process-identity representation: `repr` is the class name
followed by the process id, in the exact format
`<ComponentName>(pid=<integer>)`. -/
theorem repr_pid_format (s : DistLoader) :
    dunder_repr s = "DistLoader" ++ "(pid=" ++ toString s.pid ++ ")" ∧
    dunder_repr ldr0 = "DistLoader(pid=7)" :=
  ⟨rfl, by decide⟩

/-- C7 — Channel read pass-through: with no channel configured,
`channel_get` returns the supplied placeholder unchanged; with a channel
configured it returns the next available message (blocking until one is
available — `none` here models an unbounded wait on an empty channel),
and the returned message ignores the placeholder. -/
theorem channel_get_passthrough (s : DistLoader) (out outAlt cid m : Nat) (rest : List Nat) :
    channel_get { s with channel := none } out = some (out, { s with channel := none }) ∧
    channel_get { s with channel := some ⟨cid, m :: rest⟩ } out = some (m, { s with channel := some ⟨cid, rest⟩ }) ∧
    (channel_get { s with channel := some ⟨cid, m :: rest⟩ } out).map Prod.fst =
      (channel_get { s with channel := some ⟨cid, m :: rest⟩ } outAlt).map Prod.fst ∧
    channel_get { s with channel := some ⟨cid, []⟩ } out = none :=
  ⟨rfl, rfl, rfl, rfl⟩

/-- C1 — Rank derivation uniqueness: with `W >= 1` groups and
`P = num_sampler_proc N = max N 1` workers per group, the `global_rank`
values that `worker_init_fn` assigns (via `worker_ctx`) over all ranks
`R < W` and worker ids `w < P` are pairwise distinct and cover exactly
`{0, ..., W*P - 1}`. -/
theorem rank_derivation_uniqueness (W N : Nat) (hW : 1 ≤ W)
    (ctxOf : Nat → DistContext)
    (hws : ∀ R, (ctxOf R).world_size = W)
    (hrk : ∀ R, (ctxOf R).rank = R) :
    num_sampler_proc N = max N 1 ∧
    (∀ R₁ w₁ R₂ w₂, R₁ < W → w₁ < num_sampler_proc N → R₂ < W →
      w₂ < num_sampler_proc N →
      (worker_ctx (ctxOf R₁) N w₁).global_rank =
        (worker_ctx (ctxOf R₂) N w₂).global_rank →
      R₁ = R₂ ∧ w₁ = w₂) ∧
    (∀ g, g < W * num_sampler_proc N →
      ∃ R w, R < W ∧ w < num_sampler_proc N ∧
        (worker_ctx (ctxOf R) N w).global_rank = g) := by
  have hP : 0 < num_sampler_proc N := num_sampler_proc_pos N
  have hgr : ∀ R w, (worker_ctx (ctxOf R) N w).global_rank =
      num_sampler_proc N * R + w := by
    intro R w
    simp [worker_ctx, hrk, Nat.mul_comm]
  refine ⟨num_sampler_proc_eq_max N, ?_, ?_⟩
  · intro R₁ w₁ R₂ w₂ _ hw₁ _ hw₂ heq
    rw [hgr, hgr] at heq
    constructor
    · have := congrArg (· / num_sampler_proc N) heq
      simpa [Nat.mul_add_div hP, Nat.div_eq_of_lt hw₁, Nat.div_eq_of_lt hw₂]
        using this
    · have := congrArg (· % num_sampler_proc N) heq
      simpa [Nat.mul_add_mod, Nat.mod_eq_of_lt hw₁, Nat.mod_eq_of_lt hw₂]
        using this
  · intro g hg
    refine ⟨g / num_sampler_proc N, g % num_sampler_proc N,
      (Nat.div_lt_iff_lt_mul hP).mpr hg, Nat.mod_lt g hP, ?_⟩
    rw [hgr]
    exact Nat.div_add_mod g (num_sampler_proc N)

/-- Witness for `rank_derivation_uniqueness` at `W = 2`, `N = 3`. -/
theorem rank_derivation_uniqueness_witness :
    num_sampler_proc 3 = max 3 1 ∧
    ∃ R w, R < 2 ∧ w < num_sampler_proc 3 ∧
      (worker_ctx (⟨2, R, 0, 0, "g"⟩ : DistContext) 3 w).global_rank = 5 := by
  have h := rank_derivation_uniqueness 2 3 (by decide)
    (fun R => (⟨2, R, 0, 0, "g"⟩ : DistContext)) (fun _ => rfl) (fun _ => rfl)
  exact ⟨h.1, h.2.2 5 (by decide)⟩

/-- C3 — Channel-reset protocol order and propagation: `reset_channel`
performs, in program order, the non-blocking pops draining the current
channel, then the group barrier, then installation of the supplied
channel (or a freshly allocated empty one), then the update of the
sampler's channel reference; afterwards the sampler's channel reference
and the loader's active channel are the same object. -/
theorem reset_channel_protocol (s : DistLoader) (cur : Channel) (chOpt : Option Channel) :
    ∃ s' evs, reset_channel chOpt { s with channel := some cur } = .ok (s', evs) ∧
      (∃ nid, evs = cur.buf.map Event.pop ++ [Event.barrier, Event.swap nid, Event.propagate nid]) ∧
      s'.sampler_channel = s'.channel ∧
      s'.channel = some (chOpt.getD { id := s.next_id, buf := [] }) := by
  cases chOpt with
  | none =>
    refine ⟨_, _, rfl, ⟨s.next_id, ?_⟩, rfl, rfl⟩
    simp [drain_channel_snd]
  | some c =>
    refine ⟨_, _, rfl, ⟨c.id, ?_⟩, rfl, rfl⟩
    simp [drain_channel_snd]

/-- C6 — Drain-then-empty: with no concurrent producers, after
`reset_channel` the old channel's buffer has been fully drained (it
reports empty and holds no messages); with no channel supplied the new
active channel is a distinct object (fresh allocation id) from the old
one, and a supplied channel is installed itself. -/
theorem reset_drain_then_empty (s : DistLoader) (cur : Channel) (h : cur.id < s.next_id) :
    ((drain_channel cur.buf).1 = [] ∧
      Channel.is_empty { cur with buf := (drain_channel cur.buf).1 } = true) ∧
    (∃ s' evs newc, reset_channel none { s with channel := some cur } = .ok (s', evs) ∧
      s'.channel = some newc ∧ newc.buf = [] ∧ newc.id ≠ cur.id) ∧
    (∀ c, ∃ s' evs, reset_channel (some c) { s with channel := some cur } = .ok (s', evs) ∧
      s'.channel = some c) := by
  refine ⟨⟨drain_channel_fst cur.buf, ?_⟩, ?_, ?_⟩
  · simp [Channel.is_empty, drain_channel_fst]
  · exact ⟨_, _, { id := s.next_id, buf := [] }, rfl, rfl, rfl, Nat.ne_of_gt h⟩
  · intro c
    exact ⟨_, _, rfl, rfl⟩

/-- Witness for `reset_drain_then_empty`: a loader with `next_id = 1`
holding a channel with id `0` and two queued messages. -/
theorem reset_drain_then_empty_witness :
    ∃ s' evs newc,
      reset_channel none { ldr0 with channel := some ⟨0, [7, 8]⟩ } = .ok (s', evs) ∧
      s'.channel = some newc ∧ newc.buf = [] ∧
      newc.id ≠ (⟨0, [7, 8]⟩ : Channel).id :=
  (reset_drain_then_empty ldr0 ⟨0, [7, 8]⟩ (by decide)).2.1

/-- C10 — `reset_channel` has the precondition that a channel is
configured: on a loader whose channel is `None` it fails (attribute
access on the absent channel) rather than acting as a no-op, and this
case is avoided in `__exit__` only because the reset is guarded by the
channel check — `__exit__` with no channel succeeds and performs neither
drain, swap nor propagation (at most the teardown barrier). -/
theorem reset_channel_requires_channel (s : DistLoader) (chOpt : Option Channel) :
    (∃ msg, reset_channel chOpt { s with channel := none } = .error msg) ∧
    (∃ s' evs, dunder_exit { s with channel := none } = .ok (s', evs) ∧
      ∀ e ∈ evs, e = Event.barrier) := by
  constructor
  · exact ⟨_, rfl⟩
  · refine ⟨(exit_iter_teardown { s with channel := none } []).1,
      (exit_iter_teardown { s with channel := none } []).2, rfl, ?_⟩
    cases hit : s.iterator <;> simp [exit_iter_teardown, hit]

/-- C5 — Warm-up prefetch round-trip: `__enter__` forces the prefetch
depth to exactly 1 and returns a fresh iterator; after `__exit__`, the
prefetch depth is restored to exactly the depth `d` held before entry,
whatever depth was set inside the scope. -/
theorem warmup_round_trip (s : DistLoader) (p_inside : Nat) :
    (dunder_enter s).1.prefetch_factor = 1 ∧
    (dunder_enter s).1.iterator = some (dunder_enter s).2 ∧
    (∃ s₃ evs, dunder_exit { (dunder_enter s).1 with prefetch_factor := p_inside } = .ok (s₃, evs) ∧
      s₃.prefetch_factor = s.prefetch_factor) := by
  obtain ⟨ctx, ch, sch, nw, pd, pf, po, it, cw, nid⟩ := s
  refine ⟨rfl, rfl, ?_⟩
  cases ch with
  | none => exact ⟨_, _, rfl, rfl⟩
  | some cur => exact ⟨_, _, rfl, rfl⟩

/-- C4 counterexample — the claim "`worker_init_fn(k)` raises an error
whose message identifies worker `k`" fails: on the concrete loader
`ldr0`, a `RuntimeError` from the sampler init makes `worker_init_fn`
raise the very same message for worker 3 and for worker 5, so the message
cannot identify which worker failed (it names only the loader's class and
pid, and the phase). -/
theorem worker_init_error_same_msg_counterexample :
    worker_init_fn ldr0 (.runtimeError "boom") 3 =
      .runtimeError "`DistLoader(pid=7).init_fn()` could not initialize the worker loop of the neighbor sampler" ∧
    worker_init_fn ldr0 (.runtimeError "boom") 5 =
      .runtimeError "`DistLoader(pid=7).init_fn()` could not initialize the worker loop of the neighbor sampler" := by
  constructor <;> decide

/-- C4 amended — if the sampler's `init_sampler_instance` raises a
`RuntimeError`, `worker_init_fn` raises a `RuntimeError` whose message
names the loader (its class name and pid, via its `repr`) and states that
the neighbor sampler's worker loop could not be initialized; the message
does not mention the worker id (it is the same for every worker).  Errors
other than `RuntimeError` propagate unchanged; no error is silently
swallowed. -/
theorem worker_init_error_propagation (s : DistLoader) (w w' : Nat) (m m' : String) :
    worker_init_fn s (.runtimeError m) w = .runtimeError (init_fn_error_msg s) ∧
    init_fn_error_msg s =
      "`" ++ dunder_repr s ++ ".init_fn()` could not initialize the " ++ "worker loop of the neighbor sampler" ∧
    worker_init_fn s (.runtimeError m) w = worker_init_fn s (.runtimeError m) w' ∧
    worker_init_fn s (.otherError m') w = .otherError m' :=
  ⟨rfl, rfl, rfl, rfl⟩
